import Mathlib

/-!
Verification of the Gita TTS batch-processing core (`src/narakeet_tts.py`).

The Python code manipulates parsed JSON (dicts, lists, strings, numbers).
We embed JSON values as `JValue`; Python dicts become ordered association
lists with unique-key semantics (`dlookup` returns the first binding, and
`dset` replaces the first binding in place, which agrees with Python dicts,
whose keys are unique).  Python truthiness is `truthy`.  Fallible Python code
(statements that can raise) returns `Except String _`; external collaborators
(the Narakeet synthesis API, the googletrans provider, the clock) are fields
of `BatchEnv`.
-/

namespace GitaTTS

/-- JSON values, as produced by `request.json()`.  Numbers are embedded as
integers; the verse payloads only carry integer chapter/verse numbers. -/
inductive JValue where
  | null : JValue
  | bool : Bool → JValue
  | str : String → JValue
  | num : Int → JValue
  | obj : List (String × JValue) → JValue
  | arr : List JValue → JValue

/-- A parsed JSON object (Python dict): ordered association list. -/
abbrev VRec := List (String × JValue)

/-- First binding for a key (Python `dict[key]` / `dict.get(key)` — dict keys
are unique, so the first binding is the binding). -/
def dlookup : VRec → String → Option JValue
  | [], _ => none
  | (k, v) :: rest, key => if k == key then some v else dlookup rest key

/-- Python `key in dict`. -/
def hasKey (r : VRec) (k : String) : Bool := (dlookup r k).isSome

/-- Python `dict.get(key, default)`. -/
def dget (r : VRec) (k : String) (d : JValue) : JValue := (dlookup r k).getD d

/-- Python `dict[key] = v`: replace the first binding in place, else append. -/
def dset : VRec → String → JValue → VRec
  | [], key, v => [(key, v)]
  | (k, w) :: rest, key, v =>
      if k == key then (key, v) :: rest else (k, w) :: dset rest key v

/-- Python truthiness of a JSON value. -/
def truthy : JValue → Bool
  | .null => false
  | .bool b => b
  | .str s => !s.isEmpty
  | .num n => n != 0
  | .obj f => !f.isEmpty
  | .arr a => !a.isEmpty

/-- Truthiness of a value that may be Python `None` (`Option.none`). -/
def otruthy : Option JValue → Bool
  | none => false
  | some v => truthy v

/-- Generic association-list lookup (for the string tables of the source). -/
def alookup {α : Type} : List (String × α) → String → Option α
  | [], _ => none
  | (k, v) :: rest, key => if k == key then some v else alookup rest key

/-- The `voice_recommendations` table of `get_recommended_voice`. -/
def voice_recommendations : List (String × List (String × List String)) :=
  [ ("en", [ ("male", ["ravi", "dev", "rajesh", "manish", "himesh"]),
             ("female", ["anushka", "deepika", "neerja", "pooja", "vidya"]) ]),
    ("hi", [ ("male", ["amitabh", "sanjay", "ranbir", "varun", "sunil"]),
             ("female", ["madhuri", "kareena", "rashmi", "janhvi", "shreya"]) ]),
    ("gu", [ ("male", ["ramesh", "pratik"]),
             ("female", ["asha", "manasi"]) ]),
    ("sa", [ ("male", ["amitabh", "sanjay", "ranbir"]),
             ("female", ["madhuri", "kareena", "rashmi"]) ]) ]

/-- Model of `get_recommended_voice(language, gender)`:
`voice_recommendations.get(language, voice_recommendations['en']).get(gender, ['amy'])[0]`.
The `[0]` never hits an empty list (every list in the table and the `['amy']`
default are non-empty), so `headD ""` is only a type-level default. -/
def get_recommended_voice (language : String) (gender : String) : String :=
  let table := (alookup voice_recommendations language).getD
      ((alookup voice_recommendations "en").getD [])
  (((alookup table gender).getD ["amy"]).headD "")

/-- The `for source in ...: if source in verse_data and isinstance(..., dict):
if sub in ...: return ...[sub]` loops inside `extract_text_from_gita_json`. -/
def probe_nested (r : VRec) (sources : List String) (sub : String) : Option JValue :=
  match sources with
  | [] => none
  | src :: rest =>
    match dlookup r src with
    | some (.obj d) =>
        if hasKey d sub then dlookup d sub else probe_nested r rest sub
    | _ => probe_nested r rest sub

/-- Model of `extract_text_from_gita_json(verse_data, text_type)` (the source returns
`None` for “no text”, embedded as `Option.none`).  Top-level candidate fields
are read with `.get(key, '')` and tested for truthiness; the legacy short keys
`hi`/`gu`/`en` are tested for *presence* (`if key in verse_data`) and returned
raw; the nested commentary probes return the sub-field when the sub-key is
*present*. -/
def extract_text_from_gita_json (verse_data : VRec) (text_type : String) : Option JValue :=
  if text_type == "sanskrit" then
    let sanskrit_text := dget verse_data "sanskrit" (.str "")
    if truthy sanskrit_text then some sanskrit_text else
    let transliteration := dget verse_data "transliteration" (.str "")
    if truthy transliteration then some transliteration else
    let slok := dget verse_data "slok" (.str "")
    if truthy slok then some slok else
    let sa_field := dget verse_data "sa" (.str "")
    if truthy sa_field then some sa_field else
    probe_nested verse_data ["tej", "siva", "prabhu", "rams", "sankar"] "st"
  else if text_type == "sanskrit_devanagari" then
    let sanskrit_text := dget verse_data "sanskrit" (.str "")
    if truthy sanskrit_text then some sanskrit_text else
    let slok := dget verse_data "slok" (.str "")
    if truthy slok then some slok else
    probe_nested verse_data ["tej", "siva", "prabhu", "rams", "sankar"] "sd"
  else if text_type == "hindi" then
    let hindi_text := dget verse_data "hindi" (.str "")
    if truthy hindi_text then some hindi_text else
    if hasKey verse_data "hi" then dlookup verse_data "hi" else
    probe_nested verse_data ["tej", "rams", "sankar", "siva", "prabhu"] "ht"
  else if text_type == "gujarati" then
    let gujarati_text := dget verse_data "gujarati" (.str "")
    if truthy gujarati_text then some gujarati_text else
    if hasKey verse_data "gu" then dlookup verse_data "gu" else
    probe_nested verse_data ["tej", "siva", "prabhu"] "gt"
  else if text_type == "english" then
    let english_text := dget verse_data "english" (.str "")
    if truthy english_text then some english_text else
    if hasKey verse_data "en" then dlookup verse_data "en" else
    probe_nested verse_data ["prabhu", "siva", "purohit", "san", "adi", "gambir", "tej"] "et"
  else
    none

/-- Append `(k, input[k])` when `k` is present in the input
(the `if "k" in verse_data: internal_format["k"] = verse_data["k"]` lines). -/
def addIfPresent (verse_data : VRec) (acc : VRec) (k : String) : VRec :=
  match dlookup verse_data k with
  | some v => acc ++ [(k, v)]
  | none => acc

/-- Model of `convert_to_internal_format(verse_data)`: pass through unchanged when any
of `tej`/`siva`/`prabhu` is a key; otherwise build a fresh dict in the
insertion order of the source. -/
def convert_to_internal_format (verse_data : VRec) : VRec :=
  if hasKey verse_data "tej" || hasKey verse_data "siva" || hasKey verse_data "prabhu" then
    verse_data
  else
    let base : VRec :=
      [ ("_id", dget verse_data "_id" (.str "")),
        ("chapter", dget verse_data "chapter" (.num 0)),
        ("verse", dget verse_data "verse" (.num 0)),
        ("slok", dget verse_data "slok" (.str "")),
        ("transliteration", dget verse_data "transliteration" (.str "")) ]
    ["en", "hi", "gu", "sanskrit", "english", "hindi", "gujarati"].foldl
      (addIfPresent verse_data) base

/-- Python substring test `sub in s` for strings. -/
def pyContainsSub (s sub : String) : Bool := (s.splitOn sub).length > 1

/-- Python `'x' in xs` for a JSON list: membership of the string literal. -/
def listHasStr (xs : List JValue) (s : String) : Bool :=
  xs.any (fun v => match v with | .str t => t == s | _ => false)

/-- The function `convert_to_internal_format` applied to an arbitrary JSON element of a
verse list, as `detect_format_and_process` does.  Python quirks, modelled
faithfully: on a string, `'tej' in verse_data` is a substring test and a hit
returns the string unchanged; on a list, `'tej' in verse_data` is membership
and a hit returns the list unchanged; any other non-mapping raises
(`.get` attribute error / unsupported `in`), modelled as `none`. -/
def convert_any : JValue → Option JValue
  | .obj fields => some (.obj (convert_to_internal_format fields))
  | .str s =>
      if pyContainsSub s "tej" || pyContainsSub s "siva" || pyContainsSub s "prabhu" then
        some (.str s)
      else none
  | .arr xs =>
      if listHasStr xs "tej" || listHasStr xs "siva" || listHasStr xs "prabhu" then
        some (.arr xs)
      else none
  | _ => none

/-- Python `verse['chapter'] = chapter_num` followed by `convert_to_internal_format`
(the body of the chapter-flattening loops). A non-mapping verse raises on the
item assignment, modelled as `none`. -/
def stamp_and_convert (chapter_num : JValue) : JValue → Option JValue
  | .obj f => some (.obj (convert_to_internal_format (dset f "chapter" chapter_num)))
  | _ => none

/-- The inner `for verse in verses` loop of the flattening branches: stamp
and convert each verse in order, propagating a raised exception (`none`). -/
def stamp_list (c : JValue) : List JValue → Option (List JValue)
  | [] => some []
  | v :: rest =>
    match stamp_and_convert c v with
    | none => none
    | some w =>
      match stamp_list c rest with
      | none => none
      | some ws => some (w :: ws)

/-- The outer chapter loop of the flattening branches: process each entry and
extend the flattened accumulator, propagating exceptions. -/
def entries_flatten (f : JValue → Option (List JValue)) : List JValue → Option (List JValue)
  | [] => some []
  | e :: rest =>
    match f e with
    | none => none
    | some l =>
      match entries_flatten f rest with
      | none => none
      | some ls => some (l ++ ls)

/-- The `[convert_to_internal_format(verse) for verse in data]`
comprehension, propagating exceptions. -/
def convert_list : List JValue → Option (List JValue)
  | [] => some []
  | v :: rest =>
    match convert_any v with
    | none => none
    | some w =>
      match convert_list rest with
      | none => none
      | some ws => some (w :: ws)

/-- One chapter entry of the `chapters`-keyed shape:
`chapter.get('chapter_number', 1)` and `chapter.get('verses', [])`.
A non-mapping entry raises on `.get`; a non-list `verses` value is modelled
as a failure (Python would iterate a string or dict there, which no caller
does). -/
def process_chapters_entry : JValue → Option (List JValue)
  | .obj c =>
      match dget c "verses" (.arr []) with
      | .arr verses => stamp_list (dget c "chapter_number" (.num 1)) verses
      | _ => none
  | _ => none

/-- One entry of the chapter-grouped list shape:
`chapter_data.get('chapter', 0)` and `chapter_data.get('verses', [])`. -/
def process_grouped_entry : JValue → Option (List JValue)
  | .obj c =>
      match dget c "verses" (.arr []) with
      | .arr verses => stamp_list (dget c "chapter" (.num 0)) verses
      | _ => none
  | _ => none

/-- Model of `detect_format_and_process(data)`.  Result `none` models an exception escaping to
the endpoint (the caller turns it into a 400 response).  A `chapters` value
that is not a list of mappings is modelled as a failure (Python would iterate
its characters or keys and then raise on `.get`). -/
def detect_format_and_process (data : JValue) : Option (List JValue) :=
  match data with
  | .obj fields =>
    match dlookup fields "chapters" with
    | some (.arr chapters) => entries_flatten process_chapters_entry chapters
    | some _ => none
    | none => some [.obj (convert_to_internal_format fields)]
  | .arr [] => some []
  | .arr (first :: rest) =>
    match first with
    | .obj f =>
      if hasKey f "chapter" && hasKey f "verses" then
        entries_flatten process_grouped_entry (first :: rest)
      else
        convert_list (first :: rest)
    | _ => some (first :: rest)
  | other => some [other]

/-- The character `'` (used by `pyRepr`), written by code point to keep the
source free of quote-in-string puzzles. -/
def pyQuote : String := String.mk [Char.ofNat 39]

mutual

/-- Python `repr()` of a JSON value; used by `str()` on containers.  String
escaping inside `repr` is approximated by plain quoting (no text field of the
claims reaches this case). -/
def pyRepr : JValue → String
  | .null => "None"
  | .bool true => "True"
  | .bool false => "False"
  | .num n => toString n
  | .str s => pyQuote ++ s ++ pyQuote
  | .obj fields => "\x7b" ++ pyReprFields fields ++ "\x7d"
  | .arr elems => "[" ++ pyReprElems elems ++ "]"

/-- Comma-separated `repr` of dict items. -/
def pyReprFields : List (String × JValue) → String
  | [] => ""
  | [(k, v)] => pyQuote ++ k ++ pyQuote ++ ": " ++ pyRepr v
  | (k, v) :: rest => pyQuote ++ k ++ pyQuote ++ ": " ++ pyRepr v ++ ", " ++ pyReprFields rest

/-- Comma-separated `repr` of list items. -/
def pyReprElems : List JValue → String
  | [] => ""
  | [v] => pyRepr v
  | v :: rest => pyRepr v ++ ", " ++ pyReprElems rest

end

/-- Python `str()` / f-string rendering of a JSON value. -/
def pyStr : JValue → String
  | .str s => s
  | v => pyRepr v

/-- Python `len()`: defined for strings, dicts and lists; raises otherwise. -/
def pyLen : JValue → Option Nat
  | .str s => some s.length
  | .obj f => some f.length
  | .arr a => some a.length
  | _ => none

/-- ASCII approximation of the regex class `\s` / `str.strip()` whitespace. -/
def isPyWs (c : Char) : Bool :=
  c == ' ' || c == '\t' || c == '\n' || c == '\r' || c == '\x0b' || c == '\x0c'

/-- Python `str.strip()` (ASCII whitespace approximation). -/
def pyStrip (s : String) : String :=
  String.mk (((s.toList.dropWhile isPyWs).reverse.dropWhile isPyWs).reverse)

/-- Closing part `\|\|?` of the verse-number regex: greedily one or two bars. -/
def closeBars : List Char → Option (List Char)
  | '|' :: '|' :: rest => some rest
  | '|' :: rest => some rest
  | _ => none

/-- Try to match `\|\|?\d*\|\|?` at the head of the character list, returning
the suffix after the match (with the backtracking a regex engine performs when
the greedy opening `\|\|?` consumes the bar needed by the closing group). -/
def matchBarsAt : List Char → Option (List Char)
  | '|' :: '|' :: rest =>
      match closeBars (rest.dropWhile Char.isDigit) with
      | some r => some r
      | none => closeBars (('|' :: rest).dropWhile Char.isDigit)
  | '|' :: rest => closeBars (rest.dropWhile Char.isDigit)
  | _ => none

/-- Model of `re.sub(r'\|\|?\d*\|\|?', '', _)`: delete leftmost non-overlapping
matches.  The fuel argument (instantiated with the list length) only serves
termination; every step consumes at least one character. -/
def subBars : Nat → List Char → List Char
  | 0, cs => cs
  | _ + 1, [] => []
  | fuel + 1, c :: rest =>
    match matchBarsAt (c :: rest) with
    | some rem => subBars fuel rem
    | none => c :: subBars fuel rest

/-- Model of `re.sub(r'\s+', ' ', _)`: collapse whitespace runs to single spaces.  The
flag records whether the previous character belonged to a run. -/
def collapseWs : Bool → List Char → List Char
  | _, [] => []
  | prevWs, c :: rest =>
    if isPyWs c then
      if prevWs then collapseWs true rest else ' ' :: collapseWs true rest
    else c :: collapseWs false rest

/-- The literal replaced by the `danda` cleanup line of
`prepare_sanskrit_text_for_tts`.  The source file is double-encoded, so the
program literal is this exact three-character sequence. -/
def dandaLit : String := "à¥¤"

/-- The literal of the em-dash cleanup line (double-encoded in the source). -/
def emDashLit : String := "â€”"

/-- The `word_replacements` table of `prepare_sanskrit_text_for_tts` (keys are
the double-encoded literals that appear verbatim in the source file). -/
def word_replacements : List (String × String) := [
  ("à¤§à¥ƒà¤¤à¤°à¤¾à¤·à¥à¤Ÿà¥à¤°", "dhritarashtra"),
  ("à¤‰à¤µà¤¾à¤š", "uvaacha"),
  ("à¤§à¤°à¥à¤®à¤•à¥à¤·à¥‡à¤¤à¥à¤°à¥‡", "dharmakshetre"),
  ("à¤•à¥à¤°à¥à¤•à¥à¤·à¥‡à¤¤à¥à¤°à¥‡", "kurukshetre"),
  ("à¤¸à¤®à¤µà¥‡à¤¤à¤¾", "samaveta"),
  ("à¤¯à¥à¤¯à¥à¤¤à¥à¤¸à¤µà¤ƒ", "yuyutsavah"),
  ("à¤®à¤¾à¤®à¤•à¤¾à¤ƒ", "maamakaah"),
  ("à¤ªà¤¾à¤£à¥à¤¡à¤µà¤¾à¤ƒ", "paandavaah"),
  ("à¤•à¤¿à¤®à¤•à¥à¤°à¥à¤µà¤¤", "kimakurvata"),
  ("à¤¸à¤à¥à¤œà¤¯", "sanjaya")]

/-- Model of `prepare_sanskrit_text_for_tts(sanskrit_text, use_transliteration)`.
Returns `ok none` for a falsy input (Python returns `None`), the cleaned
string otherwise; raises (`error`) when a truthy non-string reaches
`.strip()`. -/
def prepare_sanskrit_text_for_tts (sanskrit_text : JValue) (use_transliteration : Bool) :
    Except String (Option String) :=
  if !truthy sanskrit_text then .ok none
  else
    match sanskrit_text with
    | .str s =>
      let cleaned := pyStrip s
      let cleaned := String.mk (subBars cleaned.toList.length cleaned.toList)
      let cleaned := String.mk (cleaned.toList.map (fun c => if c == '|' then ' ' else c))
      let cleaned := cleaned.replace dandaLit " "
      let cleaned := cleaned.replace emDashLit " "
      let cleaned := pyStrip (String.mk (collapseWs false cleaned.toList))
      if !use_transliteration then .ok (some cleaned)
      else
        .ok (some (word_replacements.foldl
          (fun acc p => acc.replace p.1 p.2) cleaned))
    | _ => .error "AttributeError: strip"

/-- The `direct_translations` override table of `translate_text` (values are the
double-encoded literals of the source file). -/
def direct_translations : List (String × String) := [
  ("hello world", "à¤¨à¤®à¤¸à¥à¤•à¤¾à¤° à¤¦à¥à¤¨à¤¿à¤¯à¤¾"),
  ("hello", "à¤¨à¤®à¤¸à¥à¤•à¤¾à¤°"),
  ("world", "à¤¦à¥à¤¨à¤¿à¤¯à¤¾"),
  ("good morning", "à¤¸à¥à¤ªà¥à¤°à¤­à¤¾à¤¤"),
  ("good evening", "à¤¶à¥à¤­ à¤¸à¤‚à¤§à¥à¤¯à¤¾"),
  ("thank you", "à¤§à¤¨à¥à¤¯à¤µà¤¾à¤¦"),
  ("how are you", "à¤†à¤ª à¤•à¥ˆà¤¸à¥‡ à¤¹à¥ˆà¤‚"),
  ("yes", "à¤¹à¤¾à¤"),
  ("no", "à¤¨à¤¹à¥€à¤‚"),
  ("please", "à¤•à¥ƒà¤ªà¤¯à¤¾")]

/-- The `transliteration_fixes` override table of `translate_text`. -/
def transliteration_fixes : List (String × String) := [
  ("à¤¹à¥ˆà¤²à¥‹ à¤µà¤°à¥à¤²à¥à¤¡", "à¤¨à¤®à¤¸à¥à¤•à¤¾à¤° à¤¦à¥à¤¨à¤¿à¤¯à¤¾"),
  ("à¤¹à¥ˆà¤²à¥‹", "à¤¨à¤®à¤¸à¥à¤•à¤¾à¤°"),
  ("à¤µà¤°à¥à¤²à¥à¤¡", "à¤¦à¥à¤¨à¤¿à¤¯à¤¾"),
  ("à¤—à¥à¤¡ à¤®à¥‰à¤°à¥à¤¨à¤¿à¤‚à¤—", "à¤¸à¥à¤ªà¥à¤°à¤­à¤¾à¤¤"),
  ("à¤—à¥à¤¡ à¤‡à¤µà¤¨à¤¿à¤‚à¤—", "à¤¶à¥à¤­ à¤¸à¤‚à¤§à¥à¤¯à¤¾"),
  ("à¤¥à¥ˆà¤‚à¤• à¤¯à¥‚", "à¤§à¤¨à¥à¤¯à¤µà¤¾à¤¦"),
  ("à¤¹à¤¾à¤‰ à¤†à¤° à¤¯à¥‚", "à¤†à¤ª à¤•à¥ˆà¤¸à¥‡ à¤¹à¥ˆà¤‚")]

/-- The `lang_map` of `translate_text`. -/
def lang_map : List (String × String) := [("hi", "hi"), ("gu", "gu"), ("sa", "hi")]

/-- External collaborators and request-independent process state of the
batch endpoint. `rawTranslate` is the googletrans detect-and-translate pair
(`none` models a raised provider exception); `synth` is the Narakeet call of
`synthesize_text_to_speech` (text, voice, speed in hundredths, filename,
language → saved file path, or `none` for any failure, including a non-200
response or a request exception); `timestamp` is `datetime.now()` as
formatted by `create_batch_filename`. -/
structure BatchEnv where
  translationAvailable : Bool
  rawTranslate : String → String → Option String
  synth : String → String → Nat → String → String → Option String
  timestamp : String

/-- Model of `translate_text(text, target_language)`.  The function wraps its body in
`try/except` and returns the original text on any error, so it never raises;
a non-string input raises inside the `try` (at the `text[:50]` slice) and is
returned unchanged.  For `target_language == 'hi'` the hard-coded override
tables are consulted (`text.lower().strip()` is approximated by ASCII
lower/trim). -/
def translate_text (env : BatchEnv) (text : JValue) (target_language : String) : JValue :=
  if !env.translationAvailable then text
  else if target_language == "en" then text
  else
    match text with
    | .str s =>
      let target_code := (alookup lang_map target_language).getD target_language
      match env.rawTranslate s target_code with
      | none => text
      | some translated =>
        if target_language == "hi" then
          let lower_text := pyStrip s.toLower
          match alookup direct_translations lower_text with
          | some d => .str d
          | none =>
            match alookup transliteration_fixes translated with
            | some fx => .str fx
            | none => .str translated
        else .str translated
    | _ => text

/-- Model of `create_batch_filename(verse_id, language, voice, text_type)` with the
`datetime.now()` timestamp passed in. -/
def create_batch_filename (timestamp : String) (verse_id : JValue)
    (language : String) (voice : String) (text_type : String) : String :=
  "BG_" ++ pyStr verse_id ++ "_" ++ language ++ "_" ++ text_type ++ "_" ++ voice
    ++ "_" ++ timestamp ++ ".mp3"

/-- Splitter state machine for `languages.split(',')` (structural, so that
concrete runs evaluate by `rfl`; agrees with Python `str.split(',')`,
including `'' -> ['']`). -/
def splitCommaChars : List Char → List Char → List String
  | acc, [] => [String.mk acc.reverse]
  | acc, c :: rest =>
    if c == ',' then String.mk acc.reverse :: splitCommaChars [] rest
    else splitCommaChars (c :: acc) rest

/-- Python `languages.split(',')`. -/
def pySplitComma (s : String) : List String := splitCommaChars [] s.toList

/-- Query parameters of the `/batch-file` endpoint (`max_verses` is the raw
integer query value, so it is an `Int`). -/
structure BatchOpts where
  gender : String
  max_verses : Int
  skip_missing : Bool
  use_fallbacks : Bool
  include_transliteration : Bool

/-- One entry of the endpoint's `results` list.  `speed` is in hundredths
(`0.85 → 85`): the speeds are literal constants, so no float arithmetic is
modelled.  File-size bookkeeping (`os.path.getsize`) and the basename split
are filesystem metadata outside the model; `audio_file` keeps the saved path
returned by the synthesis call (`none` on the failure branch, whose dict
carries an error string instead). -/
structure ItemResult where
  verse_id : JValue
  chapter : JValue
  language : String
  text_type : Option String
  voice : String
  speed : Nat
  text : JValue
  audio_file : Option String
  success : Bool
  fallback_used : Bool

/-- Outcome of one (verse, language) iteration of the inner loop.
`missingSkipped` is the `skip_missing` branch (sets `verse_had_issues` and
`continue`s); `missingDropped` is the `not skip_missing` branch (just
`continue`s, recording nothing); `unsupported` is the unknown-language
`continue`. -/
inductive ItemOutcome where
  | unsupported
  | missingSkipped
  | missingDropped
  | produced (r : ItemResult)

/-- Python `f"{text_type}"` as used in the batch filename (Python renders `None`). -/
def ttypeRender : Option String → String
  | some s => s
  | none => "None"

/-- The `print(f"... {text[:80]} ..." if len(text) > 80 else ...)` line:
`len` raises on numbers/booleans/`None`, and slicing raises on a dict, so a
pathological resolved text aborts the whole batch here.  Models only the
raising behaviour of the statement. -/
def printTextGuard (text : JValue) : Except String Unit :=
  match pyLen text with
  | none => .error "TypeError: len"
  | some n =>
    if n > 80 then
      match text with
      | .str _ => .ok ()
      | .arr _ => .ok ()
      | _ => .error "TypeError: slice"
    else .ok ()

/-- The common tail of the language branches (lines building the filename,
synthesizing, and recording the per-item result dict).  A truthy non-string
text raises at the first `text.encode('utf-8')` of
`synthesize_text_to_speech` — the Text-encoding print, which sits *before*
the `try` — so the whole batch aborts (a 500), modelled as `error`.  For a
string text, any failure of the API call inside the `try` (non-200 status or
request exception) makes `synthesize_text_to_speech` return `None`, recorded
as a per-item failure result. -/
def produceResult (env : BatchEnv) (verse_id chapter_num : JValue) (lang : String)
    (text_type : Option String) (voice : String) (speed : Nat) (text : JValue)
    (fallback_used : Bool) : Except String ItemOutcome :=
  let filename := create_batch_filename env.timestamp verse_id lang voice (ttypeRender text_type)
  match printTextGuard text with
  | .error e => .error e
  | .ok _ =>
    match text with
    | .str s =>
      match env.synth s voice speed filename lang with
      | some path =>
        .ok (.produced ⟨verse_id, chapter_num, lang, text_type, voice, speed, text,
          some path, true, fallback_used⟩)
      | none =>
        .ok (.produced ⟨verse_id, chapter_num, lang, text_type, voice, speed, text,
          none, false, fallback_used⟩)
    | _ => .error "AttributeError: encode"

/-- The final `if not text: skip or drop; else synthesize` tail shared by all
language branches. -/
def finishItem (env : BatchEnv) (opts : BatchOpts) (verse_id chapter_num : JValue)
    (lang : String) (text : Option JValue) (text_type : Option String)
    (voice : String) (speed : Nat) (fallback_used : Bool) : Except String ItemOutcome :=
  if !otruthy text then
    .ok (if opts.skip_missing then .missingSkipped else .missingDropped)
  else
    produceResult env verse_id chapter_num lang text_type voice speed
      (text.getD .null) fallback_used

/-- The Sanskrit fallback chain (lines guarded by
`if not text and use_fallbacks`).  Returns the updated
(text, text_type, fallback_used) triple; fallback 1 can raise via
`prepare_sanskrit_text_for_tts`.  Each tier re-assigns `text` with its
extraction result even when that result is falsy, exactly as the source
does. -/
def saFallbacks (opts : BatchOpts) (verse_data : VRec)
    (text : Option JValue) (text_type : Option String) :
    Except String (Option JValue × Option String × Bool) :=
  let step1 : Except String (Option JValue × Option String × Bool) :=
    if opts.include_transliteration then
      let t1 := extract_text_from_gita_json verse_data "sanskrit_devanagari"
      if otruthy t1 then
        match prepare_sanskrit_text_for_tts (t1.getD .null) false with
        | .error e => .error e
        | .ok cleaned => .ok (cleaned.map .str, some "devanagari_fallback", true)
      else .ok (t1, text_type, false)
    else .ok (text, text_type, false)
  match step1 with
  | .error e => .error e
  | .ok (text1, tt1, fb1) =>
    let (text2, tt2, fb2) :=
      if !otruthy text1 then
        let th := extract_text_from_gita_json verse_data "hindi"
        if otruthy th then (th, some "hindi_as_sanskrit", true) else (th, tt1, fb1)
      else (text1, tt1, fb1)
    let (text3, tt3, fb3) :=
      if !otruthy text2 then
        let te := extract_text_from_gita_json verse_data "english"
        if otruthy te then
          (some (.str ("Sanskrit not available. English text: " ++ pyStr (te.getD .null))),
           some "english_fallback", true)
        else (te, tt2, fb2)
      else (text2, tt2, fb2)
    .ok (text3, tt3, fb3)

/-- One iteration of the inner `for lang in languages` loop of
`batch_file_endpoint` (`lang.strip()` is `pyStrip`, an ASCII approximation of
Python `strip`). -/
def processItem (env : BatchEnv) (opts : BatchOpts) (verse_data : VRec)
    (verse_id chapter_num : JValue) (langRaw : String) : Except String ItemOutcome :=
  let lang := pyStrip langRaw
  if lang == "sa" then
    let text :=
      if opts.include_transliteration then
        extract_text_from_gita_json verse_data "sanskrit"
      else
        extract_text_from_gita_json verse_data "sanskrit_devanagari"
    let text_type : Option String :=
      if otruthy text then
        some (if opts.include_transliteration then "transliteration" else "devanagari")
      else none
    if !otruthy text && opts.use_fallbacks then
      match saFallbacks opts verse_data text text_type with
      | .error e => .error e
      | .ok (t, tt, fb) =>
        finishItem env opts verse_id chapter_num lang t tt
          (get_recommended_voice "sa" opts.gender) 65 fb
    else
      finishItem env opts verse_id chapter_num lang text text_type
        (get_recommended_voice "sa" opts.gender) 65 false
  else if lang == "hi" then
    let text := extract_text_from_gita_json verse_data "hindi"
    let text_type : Option String :=
      some (if hasKey verse_data "hindi" then "direct" else "commentary")
    let (text, text_type, fb) :=
      if !otruthy text && opts.use_fallbacks then
        let english_text := extract_text_from_gita_json verse_data "english"
        if otruthy english_text && env.translationAvailable then
          (some (translate_text env (english_text.getD .null) "hi"),
           some "translated_fallback", true)
        else (text, text_type, false)
      else (text, text_type, false)
    finishItem env opts verse_id chapter_num lang text text_type
      (get_recommended_voice "hi" opts.gender) 85 fb
  else if lang == "gu" then
    let text := extract_text_from_gita_json verse_data "gujarati"
    let text_type : Option String := some "direct"
    let (text, text_type, fb) :=
      if !otruthy text then
        let english_text := extract_text_from_gita_json verse_data "english"
        if otruthy english_text && env.translationAvailable then
          (some (translate_text env (english_text.getD .null) "gu"),
           some "translated", true)
        else (text, text_type, false)
      else (text, text_type, false)
    finishItem env opts verse_id chapter_num lang text text_type
      (get_recommended_voice "gu" opts.gender) 85 fb
  else if lang == "en" then
    let text := extract_text_from_gita_json verse_data "english"
    let text_type : Option String :=
      some (if hasKey verse_data "english" then "direct" else "commentary")
    finishItem env opts verse_id chapter_num lang text text_type
      (get_recommended_voice "en" opts.gender) 85 false
  else
    .ok .unsupported

/-- The `processing_stats` dict of the endpoint. -/
structure Stats where
  processed : Nat
  skipped : Nat
  failed : Nat
  fallbacks_used : Nat
  deriving DecidableEq, Repr

/-- State threaded through the inner language loop of one verse:
`verse_results`, `verse_had_issues`, and the (shared) `processing_stats`,
which the inner loop updates (`fallbacks_used` before synthesis, `failed`
after a failed synthesis). -/
structure LangState where
  results : List ItemResult
  had_issues : Bool
  stats : Stats

/-- Update the language-loop state with one item outcome. -/
def applyOutcome (st : LangState) : ItemOutcome → LangState
  | .unsupported => st
  | .missingSkipped => { st with had_issues := true }
  | .missingDropped => st
  | .produced r =>
    let stats :=
      if r.fallback_used then
        { st.stats with fallbacks_used := st.stats.fallbacks_used + 1 }
      else st.stats
    let stats :=
      if r.success then stats else { stats with failed := stats.failed + 1 }
    { st with results := st.results ++ [r], stats := stats }

/-- The inner `for lang in languages` loop. -/
def runLangs (env : BatchEnv) (opts : BatchOpts) (verse_data : VRec)
    (verse_id chapter_num : JValue) : List String → LangState → Except String LangState
  | [], st => .ok st
  | l :: rest, st =>
    match processItem env opts verse_data verse_id chapter_num l with
    | .error e => .error e
    | .ok oc => runLangs env opts verse_data verse_id chapter_num rest (applyOutcome st oc)

/-- One entry of `verse_summaries`. -/
structure VerseSummary where
  verse_id : JValue
  chapter : JValue
  total_languages : Nat
  successful : Nat
  failed : Nat
  fallbacks_used : Nat

/-- Accumulated endpoint state: `processing_stats`, `all_results`,
`verse_summaries` and the `chapters_processed` set (kept as an
insertion-ordered duplicate-free list; only its member set is observable). -/
structure BatchState where
  stats : Stats
  all_results : List ItemResult
  verse_summaries : List VerseSummary
  chapters : List JValue

mutual

/-- Python `==` on the JSON values used as set elements (structural; the
cross-type numeric equalities of Python, such as `1 == True`, do not arise
for chapter numbers). -/
def jeq : JValue → JValue → Bool
  | .null, .null => true
  | .bool a, .bool b => a == b
  | .str a, .str b => a == b
  | .num a, .num b => a == b
  | .obj a, .obj b => jeqFields a b
  | .arr a, .arr b => jeqElems a b
  | _, _ => false

/-- Pointwise `jeq` on dict items. -/
def jeqFields : List (String × JValue) → List (String × JValue) → Bool
  | [], [] => true
  | (k, v) :: r, (k2, v2) :: r2 => k == k2 && jeq v v2 && jeqFields r r2
  | _, _ => false

/-- Pointwise `jeq` on list items. -/
def jeqElems : List JValue → List JValue → Bool
  | [], [] => true
  | v :: r, v2 :: r2 => jeq v v2 && jeqElems r r2
  | _, _ => false

end

/-- Python `chapters_processed.add(chapter_num)`. -/
def insertChapter (cs : List JValue) (c : JValue) : List JValue :=
  if cs.any (jeq c) then cs else cs ++ [c]

/-- The initial endpoint state. -/
def initBatchState : BatchState := ⟨⟨0, 0, 0, 0⟩, [], [], []⟩

/-- One iteration of the outer `for i, verse_data in enumerate(verses_data)`
loop: skip (and count) a verse whose `_id` is missing or falsy, otherwise run
every language and fold the verse results into the endpoint state.  A
non-mapping element raises at `verse_data.get` (`error`, which the endpoint
turns into a 500 response).  Known deviation: the `debug_verse_data` dump the
source prints for the first three verses is omitted; it is I/O, except that
its `len()`/slicing of truthy non-string field values can raise and 500 the
batch in Python — a pathological-input abort path this model does not
reproduce. -/
def stepVerse (env : BatchEnv) (opts : BatchOpts) (langs : List String)
    (bst : BatchState) : JValue → Except String BatchState
  | .obj verse_data =>
    if !otruthy (dlookup verse_data "_id") then
      .ok { bst with stats := { bst.stats with skipped := bst.stats.skipped + 1 } }
    else
      let verse_id := (dlookup verse_data "_id").getD .null
      let chapter_num := dget verse_data "chapter" (.num 0)
      let bst := { bst with chapters := insertChapter bst.chapters chapter_num }
      match runLangs env opts verse_data verse_id chapter_num langs ⟨[], false, bst.stats⟩ with
      | .error e => .error e
      | .ok ls =>
        let stats :=
          if !ls.results.isEmpty then
            { ls.stats with processed := ls.stats.processed + 1 }
          else if ls.had_issues then
            { ls.stats with skipped := ls.stats.skipped + 1 }
          else ls.stats
        let successful := (ls.results.filter (fun r => r.success)).length
        let summary : VerseSummary :=
          ⟨verse_id, chapter_num, ls.results.length, successful,
           ls.results.length - successful,
           (ls.results.filter (fun r => r.fallback_used)).length⟩
        .ok ⟨stats, bst.all_results ++ ls.results,
             bst.verse_summaries ++ [summary], bst.chapters⟩
  | _ => .error "AttributeError: get"

/-- The outer verse loop. -/
def runVerses (env : BatchEnv) (opts : BatchOpts) (langs : List String) :
    List JValue → BatchState → Except String BatchState
  | [], bst => .ok bst
  | v :: rest, bst =>
    match stepVerse env opts langs bst v with
    | .error e => .error e
    | .ok bst2 => runVerses env opts langs rest bst2

/-- Model of `batch_file_endpoint` over an already-parsed JSON body.  Errors carry the
HTTP status: format-detection failures and the `max_verses` cap are 400
request-validation rejections raised before the loop touches any verse;
exceptions escaping the loop become a 500 (their Python messages are
abstracted).  The response keeps the final `BatchState`; the summary numbers
of the JSON response are derived from it. -/
def batch_file_endpoint (env : BatchEnv) (raw : JValue) (languages : String)
    (opts : BatchOpts) : Except (Nat × String) BatchState :=
  match detect_format_and_process raw with
  | none => .error (400, "Error processing format")
  | some verses_data =>
    let langs := pySplitComma languages
    if (verses_data.length : Int) > opts.max_verses then
      .error (400, "Too many verses. Maximum allowed: " ++ toString opts.max_verses
        ++ ". Found: " ++ toString verses_data.length)
    else
      match runVerses env opts langs verses_data initBatchState with
      | .error _ => .error (500, "Batch processing error")
      | .ok bst => .ok bst

/-- Spec-side candidate of a §4.2 resolution chain.  `nonemptyField` wins
when the field value is non-empty (truthy); `presentField` wins when the key
is present at all (this is the amended behaviour of the legacy short keys);
`nestedPresent` probes the listed commentator objects in order for a present
sub-key. -/
inductive SpecCandidate where
  | nonemptyField (key : String)
  | presentField (key : String)
  | nestedPresent (sources : List String) (sub : String)

/-- Spec-side nested probe: first listed source that is a mapping carrying
the sub-key yields its value. -/
def spec_probe (r : VRec) (sub : String) : List String → Option JValue
  | [] => none
  | src :: rest =>
    match dlookup r src with
    | some (.obj d) =>
      match dlookup d sub with
      | some v => some v
      | none => spec_probe r sub rest
    | _ => spec_probe r sub rest

/-- Evaluate one chain candidate on a record. -/
def evalCandidate (r : VRec) : SpecCandidate → Option JValue
  | .nonemptyField k => if truthy (dget r k (.str "")) then some (dget r k (.str "")) else none
  | .presentField k => dlookup r k
  | .nestedPresent srcs sub => spec_probe r sub srcs

/-- First candidate of the chain that yields a value wins; no later candidate
is consulted. -/
def runChain (r : VRec) : List SpecCandidate → Option JValue
  | [] => none
  | c :: rest =>
    match evalCandidate r c with
    | some v => some v
    | none => runChain r rest

/-- Spec chain (§4.2) for `sanskrit` (amended: the nested probe fires on presence). -/
def chain_sanskrit : List SpecCandidate :=
  [.nonemptyField "sanskrit", .nonemptyField "transliteration", .nonemptyField "slok",
   .nonemptyField "sa", .nestedPresent ["tej", "siva", "prabhu", "rams", "sankar"] "st"]

/-- Spec chain (§4.2) for `sanskrit_devanagari`. -/
def chain_sanskrit_devanagari : List SpecCandidate :=
  [.nonemptyField "sanskrit", .nonemptyField "slok",
   .nestedPresent ["tej", "siva", "prabhu", "rams", "sankar"] "sd"]

/-- Spec chain (§4.2) for `hindi` (amended: `hi` fires on presence). -/
def chain_hindi : List SpecCandidate :=
  [.nonemptyField "hindi", .presentField "hi",
   .nestedPresent ["tej", "rams", "sankar", "siva", "prabhu"] "ht"]

/-- Spec chain (§4.2) for `gujarati` (amended: `gu` fires on presence). -/
def chain_gujarati : List SpecCandidate :=
  [.nonemptyField "gujarati", .presentField "gu",
   .nestedPresent ["tej", "siva", "prabhu"] "gt"]

/-- Spec chain (§4.2) for `english` (amended: `en` fires on presence). -/
def chain_english : List SpecCandidate :=
  [.nonemptyField "english", .presentField "en",
   .nestedPresent ["prabhu", "siva", "purohit", "san", "adi", "gambir", "tej"] "et"]

/-- A record with no sanskrit-bearing field at all: none of the top-level
candidate keys of the two Sanskrit chains, and no `st`/`sd` sub-key in any
probed commentator object. -/
def noSanskritBearing (r : VRec) : Bool :=
  !hasKey r "sanskrit" && !hasKey r "transliteration" && !hasKey r "slok" && !hasKey r "sa" &&
  (["tej", "siva", "prabhu", "rams", "sankar"].all fun src =>
    match dlookup r src with
    | some (.obj d) => !hasKey d "st" && !hasKey d "sd"
    | _ => true)

/-- The `processing_stats` of a finished batch run (`none` for a rejected one). -/
def statsOf : Except (Nat × String) BatchState → Option Stats
  | .ok b => some b.stats
  | .error _ => none

/-- The HTTP rejection of a batch run, if any. -/
def errorOf : Except (Nat × String) BatchState → Option (Nat × String)
  | .error e => some e
  | .ok _ => none

/-- The `(language, text_type, success)` triple of every recorded result, in order. -/
def resultTags : Except (Nat × String) BatchState → Option (List (String × Option String × Bool))
  | .ok b => some (b.all_results.map fun r => (r.language, r.text_type, r.success))
  | .error _ => none

/-- A collection of logical verses, grouped by chapter: each group carries the
chapter-number value and its verse records. -/
abbrev ChapterGroups := List (JValue × List VRec)

/-- The flat-list input shape built from chapter groups. -/
def flatShape (gs : ChapterGroups) : JValue :=
  .arr ((gs.map Prod.snd).flatten.map .obj)

/-- The chapter-grouped list input shape `[{chapter, verses: [...]}]`. -/
def groupedShape (gs : ChapterGroups) : JValue :=
  .arr (gs.map fun g => .obj [("chapter", g.1), ("verses", .arr (g.2.map .obj))])

/-- The chapters-keyed object input shape
`{chapters: [{chapter_number, verses: [...]}]}`. -/
def chaptersShape (gs : ChapterGroups) : JValue :=
  .obj [("chapters", .arr (gs.map fun g =>
    .obj [("chapter_number", g.1), ("verses", .arr (g.2.map .obj))]))]

/-- Well-formed chapter groups: every verse record already carries its group
chapter number under `chapter` (so the stamping of the flattening loops is the
identity) and none carries a `verses` key (so a flat list is never mistaken
for a chapter-grouped one).  Verse records, as mappings, satisfy both. -/
def wellFormedGroups (gs : ChapterGroups) : Prop :=
  ∀ g ∈ gs, ∀ v ∈ g.2, dlookup v "chapter" = some g.1 ∧ hasKey v "verses" = false

/-- The outcome of an item whose text remains unresolved: the `skip_missing`
branch marks and skips, the other branch silently drops. -/
def unresolvedOutcome (opts : BatchOpts) : Except String ItemOutcome :=
  .ok (if opts.skip_missing then .missingSkipped else .missingDropped)

/-- The language-loop state after an unresolved item: the issue flag is set
under `skip_missing`, and nothing at all changes otherwise. -/
def markIssue (opts : BatchOpts) (st : LangState) : LangState :=
  if opts.skip_missing then { st with had_issues := true } else st

/-- A demo environment whose external collaborators always succeed. -/
def demoEnv : BatchEnv :=
  ⟨true, fun _ _ => some "G", fun _ _ _ _ _ => some "audio.mp3", "ts"⟩

/-- A demo environment with no translation support and failing synthesis. -/
def demoEnvNoTrans : BatchEnv :=
  ⟨false, fun _ _ => none, fun _ _ _ _ _ => none, "ts"⟩

/-! ### Helper lemmas -/

/-- The source's nested-commentary loop agrees with the spec-side probe. -/
theorem probe_nested_eq_spec (r : VRec) (sub : String) :
    ∀ srcs, probe_nested r srcs sub = spec_probe r sub srcs := by
  intro srcs
  induction srcs with
  | nil => rfl
  | cons s rest ih =>
    simp only [probe_nested, spec_probe]
    cases h : dlookup r s with
    | none => exact ih
    | some v =>
      cases v with
      | obj d =>
        by_cases hds : (dlookup d sub).isSome
        · obtain ⟨x, hx⟩ := Option.isSome_iff_exists.mp hds
          simp [hasKey, hx]
        · have hn : dlookup d sub = none := Option.not_isSome_iff_eq_none.mp hds
          simp [hasKey, hn, ih]
      | null => exact ih
      | bool b => exact ih
      | str t => exact ih
      | num n => exact ih
      | arr a => exact ih

/-- Extraction on `sanskrit` is the §4.2 chain. -/
theorem extract_eq_chain_sanskrit (r : VRec) :
    extract_text_from_gita_json r "sanskrit" = runChain r chain_sanskrit := by
  by_cases h1 : truthy (dget r "sanskrit" (JValue.str "")) <;>
  by_cases h2 : truthy (dget r "transliteration" (JValue.str "")) <;>
  by_cases h3 : truthy (dget r "slok" (JValue.str "")) <;>
  by_cases h4 : truthy (dget r "sa" (JValue.str "")) <;>
  simp [extract_text_from_gita_json, chain_sanskrit, runChain, evalCandidate,
    probe_nested_eq_spec, h1, h2, h3, h4] <;>
  (cases hp : spec_probe r "st" ["tej", "siva", "prabhu", "rams", "sankar"] <;> simp [hp])

/-- Extraction on `sanskrit_devanagari` is the §4.2 chain. -/
theorem extract_eq_chain_sanskrit_devanagari (r : VRec) :
    extract_text_from_gita_json r "sanskrit_devanagari" = runChain r chain_sanskrit_devanagari := by
  by_cases h1 : truthy (dget r "sanskrit" (JValue.str "")) <;>
  by_cases h2 : truthy (dget r "slok" (JValue.str "")) <;>
  simp [extract_text_from_gita_json, chain_sanskrit_devanagari, runChain, evalCandidate,
    probe_nested_eq_spec, h1, h2] <;>
  (cases hp : spec_probe r "sd" ["tej", "siva", "prabhu", "rams", "sankar"] <;> simp [hp])

/-- Extraction on `hindi` is the §4.2 chain. -/
theorem extract_eq_chain_hindi (r : VRec) :
    extract_text_from_gita_json r "hindi" = runChain r chain_hindi := by
  by_cases h1 : truthy (dget r "hindi" (JValue.str "")) <;>
  by_cases h2 : hasKey r "hi" <;>
  simp [extract_text_from_gita_json, chain_hindi, runChain, evalCandidate,
    probe_nested_eq_spec, h1, h2, hasKey, Option.isSome_iff_exists] <;>
  cases hl : dlookup r "hi" <;> simp_all [hasKey] <;>
  (cases hp : spec_probe r "ht" ["tej", "rams", "sankar", "siva", "prabhu"] <;> simp [hp])

/-- Extraction on `gujarati` is the §4.2 chain. -/
theorem extract_eq_chain_gujarati (r : VRec) :
    extract_text_from_gita_json r "gujarati" = runChain r chain_gujarati := by
  by_cases h1 : truthy (dget r "gujarati" (JValue.str "")) <;>
  by_cases h2 : hasKey r "gu" <;>
  simp [extract_text_from_gita_json, chain_gujarati, runChain, evalCandidate,
    probe_nested_eq_spec, h1, h2, hasKey, Option.isSome_iff_exists] <;>
  cases hl : dlookup r "gu" <;> simp_all [hasKey] <;>
  (cases hp : spec_probe r "gt" ["tej", "siva", "prabhu"] <;> simp [hp])

/-- Extraction on `english` is the §4.2 chain. -/
theorem extract_eq_chain_english (r : VRec) :
    extract_text_from_gita_json r "english" = runChain r chain_english := by
  by_cases h1 : truthy (dget r "english" (JValue.str "")) <;>
  by_cases h2 : hasKey r "en" <;>
  simp [extract_text_from_gita_json, chain_english, runChain, evalCandidate,
    probe_nested_eq_spec, h1, h2, hasKey, Option.isSome_iff_exists] <;>
  cases hl : dlookup r "en" <;> simp_all [hasKey] <;>
  (cases hp : spec_probe r "et" ["prabhu", "siva", "purohit", "san", "adi", "gambir", "tej"] <;> simp [hp])

/-! ### Claim C1 -/

/-- C1 (amended).  Field extraction follows the documented per-type priority
chains, and a record exposing both a current-scheme field and a legacy-scheme
field resolves to the current-scheme field whenever the current-scheme field
is non-empty.  Amendment forced by the code: the long-form fields and the
top-level sanskrit-chain fields win when non-empty, but the legacy short keys
`hi`/`gu`/`en` win when merely *present* (an empty-string value is returned,
not passed over), and likewise a nested commentator sub-field wins when the
sub-key is present even if its value is empty. -/
theorem extraction_follows_priority_chains (r : VRec) :
    extract_text_from_gita_json r "sanskrit" = runChain r chain_sanskrit ∧
    extract_text_from_gita_json r "sanskrit_devanagari" = runChain r chain_sanskrit_devanagari ∧
    extract_text_from_gita_json r "hindi" = runChain r chain_hindi ∧
    extract_text_from_gita_json r "gujarati" = runChain r chain_gujarati ∧
    extract_text_from_gita_json r "english" = runChain r chain_english :=
  ⟨extract_eq_chain_sanskrit r, extract_eq_chain_sanskrit_devanagari r,
   extract_eq_chain_hindi r, extract_eq_chain_gujarati r, extract_eq_chain_english r⟩

/-- C1 counterexample.  On a record whose `hi` key is present but empty while
`tej.ht` holds text, extraction for `hindi` returns the empty string: the
empty earlier candidate is *not* passed over in favour of the later
candidate, contradicting the claim. -/
theorem empty_hi_key_not_passed_over :
    extract_text_from_gita_json
      [("hi", JValue.str ""), ("tej", JValue.obj [("ht", JValue.str "X")])] "hindi"
      = some (JValue.str "") ∧
    extract_text_from_gita_json
      [("hi", JValue.str ""), ("tej", JValue.obj [("ht", JValue.str "X")])] "hindi"
      ≠ some (JValue.str "X") := by
  refine ⟨rfl, fun h => ?_⟩
  rw [show extract_text_from_gita_json
      [("hi", JValue.str ""), ("tej", JValue.obj [("ht", JValue.str "X")])] "hindi"
      = some (JValue.str "") from rfl] at h
  injection h with h2
  injection h2 with h3
  exact absurd h3 (by decide)

/-! ### Claim C2 -/

/-- C2 (amended).  With text_type `sanskrit`, extraction resolves exactly in
the order `sanskrit`, `transliteration`, `slok`, `sa` (each winning when
non-empty), then probes `tej`, `siva`, `prabhu`, `rams`, `sankar` in that
order for an `st` sub-field, and returns absent when no candidate fires.
Amendment forced by the code: a nested probe fires on mere *presence* of the
`st` sub-key (its value is returned even when empty), so text can only be
guaranteed absent when no probed commentator object carries the `st` key at
all. -/
theorem sanskrit_resolution_order (r : VRec) :
    (truthy (dget r "sanskrit" (.str "")) = true →
      extract_text_from_gita_json r "sanskrit" = some (dget r "sanskrit" (.str ""))) ∧
    (truthy (dget r "sanskrit" (.str "")) = false →
     truthy (dget r "transliteration" (.str "")) = true →
      extract_text_from_gita_json r "sanskrit" = some (dget r "transliteration" (.str ""))) ∧
    (truthy (dget r "sanskrit" (.str "")) = false →
     truthy (dget r "transliteration" (.str "")) = false →
     truthy (dget r "slok" (.str "")) = true →
      extract_text_from_gita_json r "sanskrit" = some (dget r "slok" (.str ""))) ∧
    (truthy (dget r "sanskrit" (.str "")) = false →
     truthy (dget r "transliteration" (.str "")) = false →
     truthy (dget r "slok" (.str "")) = false →
     truthy (dget r "sa" (.str "")) = true →
      extract_text_from_gita_json r "sanskrit" = some (dget r "sa" (.str ""))) ∧
    (truthy (dget r "sanskrit" (.str "")) = false →
     truthy (dget r "transliteration" (.str "")) = false →
     truthy (dget r "slok" (.str "")) = false →
     truthy (dget r "sa" (.str "")) = false →
      extract_text_from_gita_json r "sanskrit"
        = spec_probe r "st" ["tej", "siva", "prabhu", "rams", "sankar"]) := by
  refine ⟨fun h1 => ?_, fun h1 h2 => ?_, fun h1 h2 h3 => ?_,
    fun h1 h2 h3 h4 => ?_, fun h1 h2 h3 h4 => ?_⟩ <;>
  simp [extract_eq_chain_sanskrit, runChain, chain_sanskrit, evalCandidate,
    h1] <;>
  simp_all <;>
  (cases hp : spec_probe r "st" ["tej", "siva", "prabhu", "rams", "sankar"] <;> simp [hp])

/-- C2 counterexample.  On a record where `tej.st` is present but empty and
`siva.st` holds text, extraction returns the empty `tej.st`: it neither skips
to the later non-empty candidate nor returns absent, contradicting the
first-non-empty reading of the chain. -/
theorem empty_tej_st_not_passed_over :
    extract_text_from_gita_json
      [("tej", JValue.obj [("st", JValue.str "")]),
       ("siva", JValue.obj [("st", JValue.str "S")])] "sanskrit"
      = some (JValue.str "") ∧
    extract_text_from_gita_json
      [("tej", JValue.obj [("st", JValue.str "")]),
       ("siva", JValue.obj [("st", JValue.str "S")])] "sanskrit"
      ≠ some (JValue.str "S") ∧
    extract_text_from_gita_json
      [("tej", JValue.obj [("st", JValue.str "")]),
       ("siva", JValue.obj [("st", JValue.str "S")])] "sanskrit"
      ≠ none := by
  refine ⟨rfl, fun h => ?_, fun h => ?_⟩ <;>
  rw [show extract_text_from_gita_json
      [("tej", JValue.obj [("st", JValue.str "")]),
       ("siva", JValue.obj [("st", JValue.str "S")])] "sanskrit"
      = some (JValue.str "") from rfl] at h
  · injection h with h2
    injection h2 with h3
    exact absurd h3 (by decide)
  · exact Option.noConfusion h

/-- C2 witness: with `sanskrit` empty and a `transliteration` present, the
chain resolves to the transliteration. -/
theorem sanskrit_resolution_order_witness :
    extract_text_from_gita_json [("transliteration", JValue.str "T")] "sanskrit"
      = some (JValue.str "T") :=
  (sanskrit_resolution_order [("transliteration", JValue.str "T")]).2.1 rfl rfl

/-! ### Claim C9 -/

/-- C9.  A text_type outside the five supported values yields absent, for
every record; in particular it is never treated as a request for English
text.  (The accompanying console report is an I/O side effect outside the
model.) -/
theorem unknown_text_type_yields_absent (r : VRec) (t : String)
    (h : t ∉ ["sanskrit", "sanskrit_devanagari", "hindi", "gujarati", "english"]) :
    extract_text_from_gita_json r t = none := by
  simp only [List.mem_cons, List.not_mem_nil, or_false, not_or] at h
  obtain ⟨h1, h2, h3, h4, h5⟩ := h
  simp [extract_text_from_gita_json, h1, h2, h3, h4, h5]

/-- C9 witness: `french` is not treated as English even when English text is
available. -/
theorem unknown_text_type_yields_absent_witness :
    extract_text_from_gita_json [("english", JValue.str "E")] "french" = none :=
  unknown_text_type_yields_absent [("english", JValue.str "E")] "french" (by decide)

/-! ### Claim C10 -/

/-- C10.  Voice selection is total and deterministic: a recognized
language×gender pair yields the first entry of its table list, an
unrecognized language falls back to the English table for that gender, and an
unrecognized gender yields the fixed default voice `amy`. -/
theorem voice_selection_total (language gender : String) :
    (language ∉ ["en", "hi", "gu", "sa"] →
      get_recommended_voice language gender = get_recommended_voice "en" gender) ∧
    (gender ∉ ["male", "female"] → get_recommended_voice language gender = "amy") ∧
    get_recommended_voice "en" "male" = "ravi" ∧
    get_recommended_voice "en" "female" = "anushka" ∧
    get_recommended_voice "hi" "male" = "amitabh" ∧
    get_recommended_voice "hi" "female" = "madhuri" ∧
    get_recommended_voice "gu" "male" = "ramesh" ∧
    get_recommended_voice "gu" "female" = "asha" ∧
    get_recommended_voice "sa" "male" = "amitabh" ∧
    get_recommended_voice "sa" "female" = "madhuri" := by
  refine ⟨fun h => ?_, fun h => ?_, rfl, rfl, rfl, rfl, rfl, rfl, rfl, rfl⟩
  · simp only [List.mem_cons, List.not_mem_nil, or_false, not_or] at h
    obtain ⟨h1, h2, h3, h4⟩ := h
    simp [get_recommended_voice, voice_recommendations, alookup,
      Ne.symm h1, Ne.symm h2, Ne.symm h3, Ne.symm h4]
  · simp only [List.mem_cons, List.not_mem_nil, or_false, not_or] at h
    obtain ⟨hg1, hg2⟩ := h
    by_cases e1 : language = "en"
    · subst e1
      simp [get_recommended_voice, voice_recommendations, alookup, Ne.symm hg1, Ne.symm hg2]
    · by_cases e2 : language = "hi"
      · subst e2
        simp [get_recommended_voice, voice_recommendations, alookup, Ne.symm hg1, Ne.symm hg2]
      · by_cases e3 : language = "gu"
        · subst e3
          simp [get_recommended_voice, voice_recommendations, alookup, Ne.symm hg1, Ne.symm hg2]
        · by_cases e4 : language = "sa"
          · subst e4
            simp [get_recommended_voice, voice_recommendations, alookup, Ne.symm hg1, Ne.symm hg2]
          · simp [get_recommended_voice, voice_recommendations, alookup,
              Ne.symm e1, Ne.symm e2, Ne.symm e3, Ne.symm e4, Ne.symm hg1, Ne.symm hg2]

/-- C10 witness: an unrecognized language uses the English table; an
unrecognized gender yields `amy`. -/
theorem voice_selection_total_witness :
    get_recommended_voice "xx" "male" = get_recommended_voice "en" "male" ∧
    get_recommended_voice "en" "other" = "amy" :=
  ⟨(voice_selection_total "xx" "male").1 (by decide),
   (voice_selection_total "en" "other").2.1 (by decide)⟩

/-! ### Claim C8 -/

/-- Folding the conditional-copy steps appends exactly the present recognized
keys, in order. -/
theorem foldl_addIfPresent (r : VRec) (ks : List String) :
    ∀ acc : VRec, ks.foldl (addIfPresent r) acc
      = acc ++ ks.filterMap (fun k => (dlookup r k).map (fun v => (k, v))) := by
  induction ks with
  | nil => intro acc; simp
  | cons k rest ih =>
    intro acc
    simp only [List.foldl_cons, List.filterMap_cons]
    cases hk : dlookup r k with
    | none => simp [addIfPresent, hk, ih]
    | some v => simp [addIfPresent, hk, ih, List.append_assoc]

/-- C8 (amended).  Normalization passes a record through unchanged exactly
when one of the keys `tej`/`siva`/`prabhu` is present (records exposing only
other legacy nested-commentary keys such as `rams`, `sankar`, `purohit` are
*not* passed through); otherwise it builds a new record that always carries
`_id`, `chapter`, `verse`, `slok`, `transliteration` (input values, or the
defaults `""`/`0`), followed by exactly those of
`en`/`hi`/`gu`/`sanskrit`/`english`/`hindi`/`gujarati` present in the input
with their input values, all other keys omitted. -/
theorem conversion_normalization (r : VRec) :
    ((hasKey r "tej" || hasKey r "siva" || hasKey r "prabhu") = true →
      convert_to_internal_format r = r) ∧
    ((hasKey r "tej" || hasKey r "siva" || hasKey r "prabhu") = false →
      convert_to_internal_format r =
        [("_id", dget r "_id" (.str "")),
         ("chapter", dget r "chapter" (.num 0)),
         ("verse", dget r "verse" (.num 0)),
         ("slok", dget r "slok" (.str "")),
         ("transliteration", dget r "transliteration" (.str ""))]
        ++ (["en", "hi", "gu", "sanskrit", "english", "hindi", "gujarati"].filterMap
            (fun k => (dlookup r k).map (fun v => (k, v))))) := by
  constructor
  · intro h
    simp [convert_to_internal_format, h]
  · intro h
    simp only [convert_to_internal_format, h, Bool.false_eq_true, if_false]
    exact foldl_addIfPresent r _ _

/-- C8 witness: a `tej` record passes through; a plain record is rebuilt with
only the recognized keys and the unrecognized `junk` key dropped. -/
theorem conversion_normalization_witness :
    convert_to_internal_format [("tej", JValue.obj []), ("junk", JValue.num 5)]
      = [("tej", JValue.obj []), ("junk", JValue.num 5)] ∧
    convert_to_internal_format
      [("_id", JValue.str "a"), ("junk", JValue.num 5), ("hi", JValue.str "h")]
      = [("_id", JValue.str "a"), ("chapter", JValue.num 0), ("verse", JValue.num 0),
         ("slok", JValue.str ""), ("transliteration", JValue.str ""),
         ("hi", JValue.str "h")] :=
  ⟨(conversion_normalization [("tej", JValue.obj []), ("junk", JValue.num 5)]).1 rfl,
   (conversion_normalization
      [("_id", JValue.str "a"), ("junk", JValue.num 5), ("hi", JValue.str "h")]).2 rfl⟩

/-- C8 counterexample.  A record exposing only the legacy nested-commentary
key `rams` is *not* passed through unchanged: the rebuilt record drops
`rams` entirely. -/
theorem rams_record_not_passed_through :
    convert_to_internal_format
      [("_id", JValue.str "x"), ("rams", JValue.obj [("ht", JValue.str "h")])]
      = [("_id", JValue.str "x"), ("chapter", JValue.num 0), ("verse", JValue.num 0),
         ("slok", JValue.str ""), ("transliteration", JValue.str "")] ∧
    hasKey (convert_to_internal_format
      [("_id", JValue.str "x"), ("rams", JValue.obj [("ht", JValue.str "h")])]) "rams"
      = false ∧
    convert_to_internal_format
      [("_id", JValue.str "x"), ("rams", JValue.obj [("ht", JValue.str "h")])]
      ≠ [("_id", JValue.str "x"), ("rams", JValue.obj [("ht", JValue.str "h")])] := by
  refine ⟨rfl, rfl, fun h => ?_⟩
  have h2 : hasKey [("_id", JValue.str "x"), ("rams", JValue.obj [("ht", JValue.str "h")])] "rams"
      = false := h ▸ (rfl : hasKey (convert_to_internal_format
        [("_id", JValue.str "x"), ("rams", JValue.obj [("ht", JValue.str "h")])]) "rams" = false)
  exact Bool.noConfusion h2

/-! ### Claim C7 -/

/-- C7.  A batch whose normalized verse count exceeds `max_verses` is
rejected with a 400 validation error carrying the cap message; the rejection
happens before the verse loop, so no verse is processed and no audio is
synthesized (the error response carries no results). -/
theorem max_verses_rejects_before_processing (env : BatchEnv) (raw : JValue)
    (languages : String) (opts : BatchOpts) (vs : List JValue)
    (hdet : detect_format_and_process raw = some vs)
    (hlen : (vs.length : Int) > opts.max_verses) :
    batch_file_endpoint env raw languages opts
      = .error (400, "Too many verses. Maximum allowed: " ++ toString opts.max_verses
          ++ ". Found: " ++ toString vs.length) := by
  simp [batch_file_endpoint, hdet, hlen]

/-- C7 witness: six verses against `max_verses = 5` are rejected up front. -/
theorem max_verses_rejects_before_processing_witness :
    batch_file_endpoint demoEnv
      (JValue.arr [JValue.obj [("_id", JValue.str "1")], JValue.obj [("_id", JValue.str "2")],
        JValue.obj [("_id", JValue.str "3")], JValue.obj [("_id", JValue.str "4")],
        JValue.obj [("_id", JValue.str "5")], JValue.obj [("_id", JValue.str "6")]])
      "en" ⟨"female", 5, true, true, true⟩
      = .error (400, "Too many verses. Maximum allowed: 5. Found: 6") :=
  max_verses_rejects_before_processing demoEnv _ "en" _
    (["1", "2", "3", "4", "5", "6"].map fun n => JValue.obj
      [("_id", JValue.str n), ("chapter", JValue.num 0), ("verse", JValue.num 0),
       ("slok", JValue.str ""), ("transliteration", JValue.str "")])
    rfl (by decide)

/-! ### Claim C6 -/

/-- C6 (amended).  In the batch endpoint, a verse record whose `_id` is
missing (or falsy) does not cause the request to be rejected: that verse is
counted as skipped and processing moves on to the remaining verses
unchanged. -/
theorem missing_id_verse_skipped (env : BatchEnv) (opts : BatchOpts)
    (langs : List String) (v : VRec) (rest : List JValue) (bst : BatchState)
    (h : otruthy (dlookup v "_id") = false) :
    runVerses env opts langs (JValue.obj v :: rest) bst
      = runVerses env opts langs rest
          { bst with stats := { bst.stats with skipped := bst.stats.skipped + 1 } } := by
  simp [runVerses, stepVerse, h]

/-- C6 witness: one step of the verse loop on an `_id`-less verse only bumps
the skipped counter. -/
theorem missing_id_verse_skipped_witness :
    runVerses demoEnv ⟨"female", 20, true, true, true⟩ ["en"]
      [JValue.obj [("english", JValue.str "t")]] initBatchState
      = runVerses demoEnv ⟨"female", 20, true, true, true⟩ ["en"] []
          ⟨⟨0, 1, 0, 0⟩, [], [], []⟩ :=
  missing_id_verse_skipped demoEnv ⟨"female", 20, true, true, true⟩ ["en"]
    [("english", JValue.str "t")] [] initBatchState rfl

/-- C6 counterexample.  A two-verse batch whose second verse lacks `_id` is
*not* rejected: the request succeeds, the offending verse is merely counted
as skipped, and the other verse is fully processed. -/
theorem missing_id_batch_not_rejected :
    statsOf (batch_file_endpoint demoEnv
      (JValue.arr [JValue.obj [("_id", JValue.str "BG1.1"), ("english", JValue.str "t")],
                   JValue.obj [("english", JValue.str "u")]])
      "en" ⟨"female", 20, true, true, true⟩)
      = some ⟨1, 1, 0, 0⟩ ∧
    resultTags (batch_file_endpoint demoEnv
      (JValue.arr [JValue.obj [("_id", JValue.str "BG1.1"), ("english", JValue.str "t")],
                   JValue.obj [("english", JValue.str "u")]])
      "en" ⟨"female", 20, true, true, true⟩)
      = some [("en", some "direct", true)] ∧
    errorOf (batch_file_endpoint demoEnv
      (JValue.arr [JValue.obj [("_id", JValue.str "BG1.1"), ("english", JValue.str "t")],
                   JValue.obj [("english", JValue.str "u")]])
      "en" ⟨"female", 20, true, true, true⟩)
      = none :=
  ⟨rfl, rfl, rfl⟩

/-! ### Claim C5 -/

/-- An unresolved item leaves the language-loop state unchanged except for
the issue flag under `skip_missing`, and the loop proceeds with the
remaining languages. -/
theorem runLangs_unresolved_step (env : BatchEnv) (opts : BatchOpts) (vd : VRec)
    (vid ch : JValue) (lang : String) (rest : List String) (st : LangState)
    (h : processItem env opts vd vid ch lang = unresolvedOutcome opts) :
    runLangs env opts vd vid ch (lang :: rest) st
      = runLangs env opts vd vid ch rest (markIssue opts st) := by
  cases hsm : opts.skip_missing <;>
  simp [runLangs, h, unresolvedOutcome, hsm, applyOutcome, markIssue]

/-- C5 (amended).  For every (verse, language) item whose text remains
unresolved after extraction and fallbacks — covering all four supported
languages, any options and any environment — the item never aborts the
batch: with `skip_missing` it yields no result and only marks the verse as
having issues, and without `skip_missing` it is silently dropped; either way
the language loop continues with the remaining languages unchanged
(conjuncts 1–4, via `unresolvedOutcome`/`markIssue`).  The issue-marked and
dropped outcomes record nothing — no result and no counter moves — and the
failed counter moves only on a synthesis failure of a produced item
(conjuncts 5–6).  A verse none of whose languages yields a result is counted
as skipped exactly when it was issue-marked, with nothing else recorded
(conjunct 7).  Amendment forced by the code: the English-to-Gujarati
translation fallback runs regardless of `use_fallbacks` (gated only by
English text and translation availability), so the claim's (verse, `gu`)
item is skipped precisely when Gujarati text is unresolved and the
translation path cannot fire or yields nothing non-empty. -/
theorem unresolved_item_never_aborts (env : BatchEnv) (opts : BatchOpts)
    (vd : VRec) (vid ch : JValue) (rest : List String) (st : LangState) :
    (otruthy (extract_text_from_gita_json vd "sanskrit") = false →
     otruthy (extract_text_from_gita_json vd "sanskrit_devanagari") = false →
     otruthy (extract_text_from_gita_json vd "hindi") = false →
     otruthy (extract_text_from_gita_json vd "english") = false →
       processItem env opts vd vid ch "sa" = unresolvedOutcome opts ∧
       runLangs env opts vd vid ch ("sa" :: rest) st
         = runLangs env opts vd vid ch rest (markIssue opts st)) ∧
    (otruthy (extract_text_from_gita_json vd "hindi") = false →
     (otruthy (extract_text_from_gita_json vd "english") = false
      ∨ env.translationAvailable = false
      ∨ truthy (translate_text env
          ((extract_text_from_gita_json vd "english").getD JValue.null) "hi") = false) →
       processItem env opts vd vid ch "hi" = unresolvedOutcome opts ∧
       runLangs env opts vd vid ch ("hi" :: rest) st
         = runLangs env opts vd vid ch rest (markIssue opts st)) ∧
    (otruthy (extract_text_from_gita_json vd "gujarati") = false →
     (otruthy (extract_text_from_gita_json vd "english") = false
      ∨ env.translationAvailable = false
      ∨ truthy (translate_text env
          ((extract_text_from_gita_json vd "english").getD JValue.null) "gu") = false) →
       processItem env opts vd vid ch "gu" = unresolvedOutcome opts ∧
       runLangs env opts vd vid ch ("gu" :: rest) st
         = runLangs env opts vd vid ch rest (markIssue opts st)) ∧
    (otruthy (extract_text_from_gita_json vd "english") = false →
       processItem env opts vd vid ch "en" = unresolvedOutcome opts ∧
       runLangs env opts vd vid ch ("en" :: rest) st
         = runLangs env opts vd vid ch rest (markIssue opts st)) ∧
    (applyOutcome st .missingSkipped = { st with had_issues := true } ∧
     applyOutcome st .missingDropped = st) ∧
    (∀ r : ItemResult, (applyOutcome st (.produced r)).stats.failed
        = st.stats.failed + (if r.success then 0 else 1)) ∧
    (∀ (langs : List String) (bst : BatchState) (vd2 : VRec) (ls : LangState),
      otruthy (dlookup vd2 "_id") = true →
      runLangs env opts vd2 ((dlookup vd2 "_id").getD JValue.null)
        (dget vd2 "chapter" (JValue.num 0)) langs ⟨[], false, bst.stats⟩ = .ok ls →
      ls.results = [] →
      stepVerse env opts langs bst (.obj vd2)
        = .ok ⟨(if ls.had_issues then { ls.stats with skipped := ls.stats.skipped + 1 }
                else ls.stats),
               bst.all_results,
               bst.verse_summaries ++ [⟨(dlookup vd2 "_id").getD JValue.null,
                 dget vd2 "chapter" (JValue.num 0), 0, 0, 0, 0⟩],
               insertChapter bst.chapters (dget vd2 "chapter" (JValue.num 0))⟩) := by
  have esa : (pyStrip "sa" == "sa") = true := rfl
  have ehi1 : (pyStrip "hi" == "sa") = false := rfl
  have ehi2 : (pyStrip "hi" == "hi") = true := rfl
  have egu1 : (pyStrip "gu" == "sa") = false := rfl
  have egu2 : (pyStrip "gu" == "hi") = false := rfl
  have egu3 : (pyStrip "gu" == "gu") = true := rfl
  have een1 : (pyStrip "en" == "sa") = false := rfl
  have een2 : (pyStrip "en" == "hi") = false := rfl
  have een3 : (pyStrip "en" == "gu") = false := rfl
  have een4 : (pyStrip "en" == "en") = true := rfl
  refine ⟨fun hs hsd hh he => ?_, fun hh hf => ?_, fun hg hf => ?_, fun he => ?_,
    ⟨rfl, rfl⟩, fun r => ?_, fun langs bst vd2 ls hid hrl hempty => ?_⟩
  · -- sa: primary and every fallback tier falsy
    have hout : processItem env opts vd vid ch "sa" = unresolvedOutcome opts := by
      cases hit : opts.include_transliteration <;> cases huf : opts.use_fallbacks <;>
      simp [processItem, esa, hit, huf, hs, hsd, hh, he, saFallbacks, finishItem,
        unresolvedOutcome]
    exact ⟨hout, runLangs_unresolved_step env opts vd vid ch "sa" rest st hout⟩
  · -- hi: direct text falsy and the translation fallback cannot resolve
    have hout : processItem env opts vd vid ch "hi" = unresolvedOutcome opts := by
      cases huf : opts.use_fallbacks
      · simp [processItem, ehi1, ehi2, huf, hh, finishItem, unresolvedOutcome]
      · cases hcc : (otruthy (extract_text_from_gita_json vd "english")
            && env.translationAvailable) with
        | false =>
          simp [processItem, ehi1, ehi2, huf, hh, hcc, finishItem, unresolvedOutcome]
        | true =>
          have hab := hcc
          rw [Bool.and_eq_true] at hab
          obtain ⟨he1, hta⟩ := hab
          have htr : truthy (translate_text env
              ((extract_text_from_gita_json vd "english").getD JValue.null) "hi") = false := by
            rcases hf with h | h | h
            · rw [h] at hcc; simp at hcc
            · rw [h] at hcc; simp at hcc
            · exact h
          have hot : otruthy (some (translate_text env
              ((extract_text_from_gita_json vd "english").getD JValue.null) "hi")) = false := by
            simpa [otruthy] using htr
          simp [processItem, ehi1, ehi2, huf, hh, he1, hta, hot, finishItem,
            unresolvedOutcome]
    exact ⟨hout, runLangs_unresolved_step env opts vd vid ch "hi" rest st hout⟩
  · -- gu: direct text falsy and the (unconditionally tried) translation
    -- fallback cannot resolve
    have hout : processItem env opts vd vid ch "gu" = unresolvedOutcome opts := by
      cases hcc : (otruthy (extract_text_from_gita_json vd "english")
          && env.translationAvailable) with
      | false =>
        simp [processItem, egu1, egu2, egu3, hg, hcc, finishItem, unresolvedOutcome]
      | true =>
        have hab := hcc
        rw [Bool.and_eq_true] at hab
        obtain ⟨he1, hta⟩ := hab
        have htr : truthy (translate_text env
            ((extract_text_from_gita_json vd "english").getD JValue.null) "gu") = false := by
          rcases hf with h | h | h
          · rw [h] at hcc; simp at hcc
          · rw [h] at hcc; simp at hcc
          · exact h
        have hot : otruthy (some (translate_text env
            ((extract_text_from_gita_json vd "english").getD JValue.null) "gu")) = false := by
          simpa [otruthy] using htr
        simp [processItem, egu1, egu2, egu3, hg, he1, hta, hot, finishItem,
          unresolvedOutcome]
    exact ⟨hout, runLangs_unresolved_step env opts vd vid ch "gu" rest st hout⟩
  · -- en: direct text falsy, no fallback exists
    have hout : processItem env opts vd vid ch "en" = unresolvedOutcome opts := by
      simp [processItem, een1, een2, een3, een4, he, finishItem, unresolvedOutcome]
    exact ⟨hout, runLangs_unresolved_step env opts vd vid ch "en" rest st hout⟩
  · -- the failed counter moves only on a failed synthesis of a produced item
    cases hfb : r.fallback_used <;> cases hsucc : r.success <;>
    simp [applyOutcome, hfb, hsucc]
  · -- a result-less verse is counted as skipped exactly when issue-marked
    simp only [stepVerse, hid, Bool.not_true, Bool.false_eq_true, if_false]
    rw [hrl]
    simp [hempty]

/-- C5 witness: with `skip_missing` and no usable fallback the `gu` item of a
verse with neither Gujarati nor English text is skipped. -/
theorem unresolved_item_never_aborts_witness :
    processItem demoEnvNoTrans ⟨"female", 20, true, false, true⟩
      [("_id", JValue.str "V")] (JValue.str "V") (JValue.num 0) "gu"
      = .ok .missingSkipped :=
  ((unresolved_item_never_aborts demoEnvNoTrans ⟨"female", 20, true, false, true⟩
    [("_id", JValue.str "V")] (JValue.str "V") (JValue.num 0) [] ⟨[], false, ⟨0, 0, 0, 0⟩⟩).2.2.1
    rfl (Or.inr (Or.inl rfl))).1

/-- C5 counterexample.  Run A: with `skip_missing=True`, `use_fallbacks=False`
and a verse missing Gujarati text but carrying English text, the (verse, gu)
item is *not* recorded as skipped — the translation fallback fires despite
`use_fallbacks=False` and the item succeeds with tag `translated`.  Run B:
with `skip_missing=False` and no fallback available, the unresolved item is
*not* recorded as failed — the failed counter stays 0 and no result is
recorded. -/
theorem gu_fallback_ignores_use_fallbacks :
    (statsOf (batch_file_endpoint demoEnv
        (JValue.arr [JValue.obj [("_id", JValue.str "V"), ("english", JValue.str "hello")]])
        "gu" ⟨"female", 20, true, false, true⟩)
      = some ⟨1, 0, 0, 1⟩ ∧
     resultTags (batch_file_endpoint demoEnv
        (JValue.arr [JValue.obj [("_id", JValue.str "V"), ("english", JValue.str "hello")]])
        "gu" ⟨"female", 20, true, false, true⟩)
      = some [("gu", some "translated", true)]) ∧
    (statsOf (batch_file_endpoint demoEnv
        (JValue.arr [JValue.obj [("_id", JValue.str "V"), ("hindi", JValue.str "h")]])
        "gu" ⟨"female", 20, false, false, true⟩)
      = some ⟨0, 0, 0, 0⟩ ∧
     resultTags (batch_file_endpoint demoEnv
        (JValue.arr [JValue.obj [("_id", JValue.str "V"), ("hindi", JValue.str "h")]])
        "gu" ⟨"female", 20, false, false, true⟩)
      = some []) :=
  ⟨⟨rfl, rfl⟩, ⟨rfl, rfl⟩⟩

/-! ### Claim C4 -/

/-- If no probed source is a mapping carrying the sub-key, the nested probe
yields nothing. -/
theorem probe_nested_none (r : VRec) (sub : String) :
    ∀ srcs : List String,
      (∀ src ∈ srcs, ∀ d, dlookup r src = some (.obj d) → hasKey d sub = false) →
      probe_nested r srcs sub = none := by
  intro srcs
  induction srcs with
  | nil => intro _; rfl
  | cons s rest ih =>
    intro h
    simp only [probe_nested]
    cases hs : dlookup r s with
    | none => exact ih fun src hsrc => h src (List.mem_cons_of_mem _ hsrc)
    | some v =>
      cases v with
      | obj d =>
        have hd := h s (List.mem_cons_self _ _) d hs
        simp only [hd, Bool.false_eq_true, if_false]
        exact ih fun src hsrc => h src (List.mem_cons_of_mem _ hsrc)
      | null => exact ih fun src hsrc => h src (List.mem_cons_of_mem _ hsrc)
      | bool b => exact ih fun src hsrc => h src (List.mem_cons_of_mem _ hsrc)
      | str t => exact ih fun src hsrc => h src (List.mem_cons_of_mem _ hsrc)
      | num n => exact ih fun src hsrc => h src (List.mem_cons_of_mem _ hsrc)
      | arr a => exact ih fun src hsrc => h src (List.mem_cons_of_mem _ hsrc)

/-- A record with no sanskrit-bearing field extracts to absent for both
Sanskrit text types. -/
theorem noSanskritBearing_extract_none (r : VRec) (h : noSanskritBearing r = true) :
    extract_text_from_gita_json r "sanskrit" = none ∧
    extract_text_from_gita_json r "sanskrit_devanagari" = none := by
  simp only [noSanskritBearing, Bool.and_eq_true, Bool.not_eq_true'] at h
  obtain ⟨⟨⟨⟨h1, h2⟩, h3⟩, h4⟩, h5⟩ := h
  have l1 : dlookup r "sanskrit" = none := Option.not_isSome_iff_eq_none.mp (by simpa [hasKey] using h1)
  have l2 : dlookup r "transliteration" = none := Option.not_isSome_iff_eq_none.mp (by simpa [hasKey] using h2)
  have l3 : dlookup r "slok" = none := Option.not_isSome_iff_eq_none.mp (by simpa [hasKey] using h3)
  have l4 : dlookup r "sa" = none := Option.not_isSome_iff_eq_none.mp (by simpa [hasKey] using h4)
  have hsub : ∀ sub, sub = "st" ∨ sub = "sd" →
      ∀ src ∈ (["tej", "siva", "prabhu", "rams", "sankar"] : List String),
      ∀ d, dlookup r src = some (.obj d) → hasKey d sub = false := by
    intro sub hsubeq src hsrc d hd
    have := List.all_eq_true.mp h5 src hsrc
    rw [hd] at this
    simp only [Bool.and_eq_true, Bool.not_eq_true'] at this
    rcases hsubeq with hq | hq <;> subst hq
    · exact this.1
    · exact this.2
  have hst : probe_nested r ["tej", "siva", "prabhu", "rams", "sankar"] "st" = none :=
    probe_nested_none r "st" _ (hsub "st" (Or.inl rfl))
  have hsd : probe_nested r ["tej", "siva", "prabhu", "rams", "sankar"] "sd" = none :=
    probe_nested_none r "sd" _ (hsub "sd" (Or.inr rfl))
  constructor
  · simp [extract_text_from_gita_json, dget, l1, l2, l3, l4, hst, truthy]
    rfl
  · simp [extract_text_from_gita_json, dget, l1, l3, hsd, truthy]
    rfl

/-- C4.  For a record with no sanskrit-bearing field at all, Sanskrit
extraction returns absent, and with `use_fallbacks` the Sanskrit item of the
batch loop substitutes the record's Hindi text tagged `hindi_as_sanskrit`;
only when Hindi is also absent (the extraction yields nothing non-empty) does
it fall to the English text with the disclaimer prefix, tagged
`english_fallback`; with both absent the item resolves to no text.  Exactly
one fallback tier determines the synthesized text — the first that yields
non-empty text. -/
theorem sanskrit_fallback_substitutes_hindi (env : BatchEnv) (opts : BatchOpts)
    (vd : VRec) (vid ch : JValue)
    (hnb : noSanskritBearing vd = true)
    (hfb : opts.use_fallbacks = true) :
    extract_text_from_gita_json vd "sanskrit" = none ∧
    (otruthy (extract_text_from_gita_json vd "hindi") = true →
      processItem env opts vd vid ch "sa"
        = produceResult env vid ch "sa" (some "hindi_as_sanskrit")
            (get_recommended_voice "sa" opts.gender) 65
            ((extract_text_from_gita_json vd "hindi").getD .null) true) ∧
    (otruthy (extract_text_from_gita_json vd "hindi") = false →
     otruthy (extract_text_from_gita_json vd "english") = true →
      processItem env opts vd vid ch "sa"
        = produceResult env vid ch "sa" (some "english_fallback")
            (get_recommended_voice "sa" opts.gender) 65
            (JValue.str ("Sanskrit not available. English text: "
              ++ pyStr ((extract_text_from_gita_json vd "english").getD .null))) true) ∧
    (otruthy (extract_text_from_gita_json vd "hindi") = false →
     otruthy (extract_text_from_gita_json vd "english") = false →
      processItem env opts vd vid ch "sa"
        = .ok (if opts.skip_missing then ItemOutcome.missingSkipped
               else ItemOutcome.missingDropped)) := by
  obtain ⟨hs, hsd⟩ := noSanskritBearing_extract_none vd hnb
  have e1 : (pyStrip "sa" == "sa") = true := rfl
  have hne : ∀ x : String, ("Sanskrit not available. English text: " ++ x).isEmpty = false := by
    intro x
    obtain ⟨xs⟩ := x
    rw [Bool.eq_false_iff]
    intro hempty
    rw [String.isEmpty_iff] at hempty
    have hd : "Sanskrit not available. English text: ".data ++ xs = [] :=
      congrArg String.data hempty
    rw [List.append_eq_nil] at hd
    exact absurd hd.1 (by decide)
  have ht : truthy (JValue.str ("Sanskrit not available. English text: "
      ++ pyStr ((extract_text_from_gita_json vd "english").getD JValue.null))) = true := by
    simp [truthy, hne]
  refine ⟨hs, fun hh => ?_, fun hh he => ?_, fun hh he => ?_⟩ <;>
  cases hit : opts.include_transliteration <;>
  simp [processItem, e1, hit, hs, hsd, hfb, saFallbacks, hh, finishItem, otruthy, ht] <;>
  simp_all [otruthy]

/-- C4 witness: a record with only a legacy `hi` field resolves its Sanskrit
item to the Hindi text tagged `hindi_as_sanskrit`. -/
theorem sanskrit_fallback_substitutes_hindi_witness :
    processItem demoEnv ⟨"female", 20, true, true, true⟩
      [("_id", JValue.str "V"), ("hi", JValue.str "h")] (JValue.str "V") (JValue.num 0) "sa"
      = produceResult demoEnv (JValue.str "V") (JValue.num 0) "sa" (some "hindi_as_sanskrit")
          (get_recommended_voice "sa" "female") 65 (JValue.str "h") true :=
  (sanskrit_fallback_substitutes_hindi demoEnv ⟨"female", 20, true, true, true⟩
    [("_id", JValue.str "V"), ("hi", JValue.str "h")] (JValue.str "V") (JValue.num 0)
    rfl rfl).2.1 rfl

/-! ### Claim C3 -/

/-- Writing a key with the value it already holds leaves a dict unchanged. -/
theorem dset_lookup_id (k : String) (c : JValue) :
    ∀ v : VRec, dlookup v k = some c → dset v k c = v := by
  intro v
  induction v with
  | nil => intro h; simp [dlookup] at h
  | cons p rest ih =>
    obtain ⟨k2, w⟩ := p
    intro h
    simp only [dlookup] at h
    simp only [dset]
    by_cases e : k2 == k
    · simp only [e, if_true] at h ⊢
      obtain rfl := Option.some.inj h
      rw [beq_iff_eq] at e
      rw [e]
    · simp only [e, Bool.false_eq_true, if_false] at h ⊢
      rw [ih h]

/-- Stamping a verse with the chapter number it already carries is the
identity followed by conversion. -/
theorem stamp_list_objs (c : JValue) :
    ∀ vs : List VRec, (∀ v ∈ vs, dlookup v "chapter" = some c) →
      stamp_list c (vs.map JValue.obj)
        = some (vs.map fun v => JValue.obj (convert_to_internal_format v)) := by
  intro vs
  induction vs with
  | nil => intro _; rfl
  | cons v rest ih =>
    intro h
    have hv := h v (List.mem_cons_self _ _)
    simp only [List.map_cons, stamp_list, stamp_and_convert,
      dset_lookup_id "chapter" c v hv, ih fun w hw => h w (List.mem_cons_of_mem _ hw)]

/-- Converting a list of mappings converts each element. -/
theorem convert_list_objs :
    ∀ vs : List VRec, convert_list (vs.map JValue.obj)
      = some (vs.map fun v => JValue.obj (convert_to_internal_format v)) := by
  intro vs
  induction vs with
  | nil => rfl
  | cons v rest ih => simp only [List.map_cons, convert_list, convert_any, ih]

/-- The chapter-grouped list entries flatten to the converted verses. -/
theorem entries_grouped (gs : ChapterGroups) (h : wellFormedGroups gs) :
    entries_flatten process_grouped_entry
        (gs.map fun g => JValue.obj [("chapter", g.1), ("verses", .arr (g.2.map .obj))])
      = some ((gs.map Prod.snd).flatten.map
          fun v => JValue.obj (convert_to_internal_format v)) := by
  induction gs with
  | nil => rfl
  | cons g grest ih =>
    have hg : ∀ v ∈ g.2, dlookup v "chapter" = some g.1 :=
      fun v hv => (h g (List.mem_cons_self _ _) v hv).1
    have hentry : process_grouped_entry
        (.obj [("chapter", g.1), ("verses", .arr (g.2.map .obj))])
        = some (g.2.map fun v => JValue.obj (convert_to_internal_format v)) := by
      simp only [process_grouped_entry, dget, dlookup]
      norm_num
      exact stamp_list_objs g.1 g.2 hg
    have htail := ih fun g2 hg2 => h g2 (List.mem_cons_of_mem _ hg2)
    simp [entries_flatten, hentry, htail]

/-- The chapters-keyed entries flatten to the converted verses. -/
theorem entries_chapters (gs : ChapterGroups) (h : wellFormedGroups gs) :
    entries_flatten process_chapters_entry
        (gs.map fun g => JValue.obj [("chapter_number", g.1), ("verses", .arr (g.2.map .obj))])
      = some ((gs.map Prod.snd).flatten.map
          fun v => JValue.obj (convert_to_internal_format v)) := by
  induction gs with
  | nil => rfl
  | cons g grest ih =>
    have hg : ∀ v ∈ g.2, dlookup v "chapter" = some g.1 :=
      fun v hv => (h g (List.mem_cons_self _ _) v hv).1
    have hentry : process_chapters_entry
        (.obj [("chapter_number", g.1), ("verses", .arr (g.2.map .obj))])
        = some (g.2.map fun v => JValue.obj (convert_to_internal_format v)) := by
      simp only [process_chapters_entry, dget, dlookup]
      norm_num
      exact stamp_list_objs g.1 g.2 hg
    have htail := ih fun g2 hg2 => h g2 (List.mem_cons_of_mem _ hg2)
    simp [entries_flatten, hentry, htail]

/-- C3.  The three accepted input shapes of the same logical verse collection
— flat list, chapter-grouped list, and chapters-keyed object — all normalize
to the same flat ordered sequence of converted verse records. -/
theorem format_detector_shape_invariance (gs : ChapterGroups) (h : wellFormedGroups gs) :
    detect_format_and_process (flatShape gs)
      = some ((gs.map Prod.snd).flatten.map
          fun v => JValue.obj (convert_to_internal_format v)) ∧
    detect_format_and_process (groupedShape gs)
      = some ((gs.map Prod.snd).flatten.map
          fun v => JValue.obj (convert_to_internal_format v)) ∧
    detect_format_and_process (chaptersShape gs)
      = some ((gs.map Prod.snd).flatten.map
          fun v => JValue.obj (convert_to_internal_format v)) := by
  refine ⟨?_, ?_, ?_⟩
  · -- flat list shape
    unfold flatShape
    cases hfl : (gs.map Prod.snd).flatten with
    | nil => simp [detect_format_and_process]
    | cons v0 vrest =>
      have hv0 : v0 ∈ (gs.map Prod.snd).flatten := by rw [hfl]; exact List.mem_cons_self _ _
      obtain ⟨l, hl, hv0l⟩ := List.mem_flatten.mp hv0
      obtain ⟨g, hg, rfl⟩ := List.mem_map.mp hl
      obtain ⟨hc, hnv⟩ := h g hg v0 hv0l
      have hkc : hasKey v0 "chapter" = true := by simp [hasKey, hc]
      simp only [List.map_cons, detect_format_and_process, hkc, hnv, Bool.and_false,
        Bool.false_eq_true, if_false]
      rw [show (JValue.obj v0 :: vrest.map JValue.obj) = (v0 :: vrest).map JValue.obj from rfl]
      rw [convert_list_objs]
      simp
  · -- chapter-grouped list shape
    unfold groupedShape
    cases hgs : gs with
    | nil => simp [detect_format_and_process]
    | cons g grest =>
      have hall := entries_grouped gs h
      rw [hgs] at hall
      simp only [List.map_cons] at hall
      simp only [List.map_cons, detect_format_and_process]
      have hk1 : hasKey [("chapter", g.1), ("verses", JValue.arr (g.2.map JValue.obj))] "chapter"
          = true := rfl
      have hk2 : hasKey [("chapter", g.1), ("verses", JValue.arr (g.2.map JValue.obj))] "verses"
          = true := rfl
      rw [hk1, hk2]
      simp only [Bool.and_self, if_true]
      rw [hall]
  · -- chapters-keyed object shape
    unfold chaptersShape
    exact entries_chapters gs h

/-- C3 witness: a one-chapter, one-verse collection yields identical
normalized output in all three shapes. -/
theorem format_detector_shape_invariance_witness :
    detect_format_and_process (flatShape
      [(JValue.num 1, [[("_id", JValue.str "BG1.1"), ("chapter", JValue.num 1),
        ("en", JValue.str "t")]])])
      = some [JValue.obj [("_id", JValue.str "BG1.1"), ("chapter", JValue.num 1),
          ("verse", JValue.num 0), ("slok", JValue.str ""), ("transliteration", JValue.str ""),
          ("en", JValue.str "t")]] ∧
    detect_format_and_process (groupedShape
      [(JValue.num 1, [[("_id", JValue.str "BG1.1"), ("chapter", JValue.num 1),
        ("en", JValue.str "t")]])])
      = some [JValue.obj [("_id", JValue.str "BG1.1"), ("chapter", JValue.num 1),
          ("verse", JValue.num 0), ("slok", JValue.str ""), ("transliteration", JValue.str ""),
          ("en", JValue.str "t")]] ∧
    detect_format_and_process (chaptersShape
      [(JValue.num 1, [[("_id", JValue.str "BG1.1"), ("chapter", JValue.num 1),
        ("en", JValue.str "t")]])])
      = some [JValue.obj [("_id", JValue.str "BG1.1"), ("chapter", JValue.num 1),
          ("verse", JValue.num 0), ("slok", JValue.str ""), ("transliteration", JValue.str ""),
          ("en", JValue.str "t")]] :=
  format_detector_shape_invariance
    [(JValue.num 1, [[("_id", JValue.str "BG1.1"), ("chapter", JValue.num 1),
      ("en", JValue.str "t")]])]
    (by intro g hg v hv
        cases hg with
        | head =>
          cases hv with
          | head => exact ⟨rfl, rfl⟩
          | tail _ h2 => cases h2
        | tail _ h1 => cases h1)

end GitaTTS
